import Mathlib

/-!
Shallow embedding of the GPS telemetry decoder, Maidenhead grid conversion,
service supervisor and device probes of the pat radio GUI repository
(src/gps_tab.py, src/radio_gui.py, src/pat_tab.py, src/pat_gui.py,
src/config_tab.py), together with theorems settling the frozen claims.

Numeric convention: Python floats are modelled as exact rationals; Python
int(), //, and % on floats are modelled by pyInt, pyFFloorDiv and pyFMod
below.  Fallible operations (float() on a non-numeric string) are modelled
with Option/Except.
-/

namespace PatRadio

/-- Python truthiness of an optional string: None and the empty string are
falsy, any non-empty string is truthy. -/
def truthyOpt : Option String → Bool
  | none => false
  | some s => s ≠ ""

/-- Python str.rstrip(): drop trailing whitespace characters. -/
def pyRstrip (s : String) : String :=
  ⟨(s.data.reverse.dropWhile Char.isWhitespace).reverse⟩

/-- Python str.splitlines() restricted to the newline character: like
split on a newline character, but a trailing newline yields no empty final
line and the empty string yields no lines. -/
def pySplitlines (s : String) : List String :=
  if s = "" then []
  else if s.endsWith "\n" then (s.splitOn "\n").dropLast
  else s.splitOn "\n"

/-- Python str.split() with no argument: split on whitespace runs,
dropping empty pieces. -/
def pySplitWs (s : String) : List String :=
  (s.split Char.isWhitespace).filter (· ≠ "")

/-- Value of a list of decimal digit characters. -/
def natOfDigits (l : List Char) : ℕ :=
  l.foldl (fun n c => 10 * n + (c.toNat - 48)) 0

/-- Python float() on the plain decimal literals the decoder feeds it:
optional sign, digits, optional decimal point with fractional digits;
none on anything else (such as the empty string, which raises ValueError
in Python). Exponents and specials never occur in NMEA fields. -/
def pyFloat (s : String) : Option ℚ :=
  let cs := s.data
  let sgn : ℚ := match cs with
    | '-' :: _ => -1
    | _ => 1
  let rest : List Char := match cs with
    | '-' :: r => r
    | '+' :: r => r
    | _ => cs
  let ip := rest.takeWhile Char.isDigit
  let rest2 := rest.dropWhile Char.isDigit
  match rest2 with
  | [] => if ip.isEmpty then none else some (sgn * (natOfDigits ip : ℚ))
  | '.' :: fr =>
      if fr.all Char.isDigit && (!ip.isEmpty || !fr.isEmpty) then
        some (sgn * ((natOfDigits ip : ℚ) + (natOfDigits fr : ℚ) / (10 : ℚ) ^ fr.length))
      else none
  | _ => none

/-- Python int() on a float value: truncation toward zero. -/
def pyInt (q : ℚ) : ℤ :=
  if 0 ≤ q then ⌊q⌋ else -⌊-q⌋

/-- Python float floor division a // b: the floor of the quotient,
returned as a float value. -/
def pyFFloorDiv (a b : ℚ) : ℚ :=
  ((⌊a / b⌋ : ℤ) : ℚ)

/-- Python float modulo a % b (for positive b): a - b * floor(a / b). -/
def pyFMod (a b : ℚ) : ℚ :=
  a - b * ((⌊a / b⌋ : ℤ) : ℚ)

/-- latlon_to_grid from src/gps_tab.py lines 9-23 (identical in
src/radio_gui.py lines 68-82): Maidenhead locator from signed decimal
degrees. chr(A + n) is Char.ofNat (65 + n); .lower() is Char.toLower;
the two digit characters are produced by formatting the Python ints. -/
def latlon_to_grid (lat0 lon0 : ℚ) : String :=
  let lon := lon0 + 180
  let lat := lat0 + 90
  let lon_field : ℤ := pyInt (pyFFloorDiv lon 20)
  let lat_field : ℤ := pyInt (pyFFloorDiv lat 10)
  let lon_square : ℤ := pyInt (pyFFloorDiv (pyFMod lon 20) 2)
  let lat_square : ℤ := pyInt (pyFFloorDiv (pyFMod lat 10) 1)
  let lon_rem : ℚ := lon - (lon_field : ℚ) * 20 - (lon_square : ℚ) * 2
  let lat_rem : ℚ := lat - (lat_field : ℚ) * 10 - (lat_square : ℚ) * 1
  let lon_sub : ℤ := pyInt (lon_rem * 12)
  let lat_sub : ℤ := pyInt (lat_rem * 24)
  String.mk [Char.ofNat (65 + lon_field).toNat, Char.ofNat (65 + lat_field).toNat]
    ++ toString lon_square ++ toString lat_square
    ++ String.mk [(Char.ofNat (65 + lon_sub).toNat).toLower,
                  (Char.ofNat (65 + lat_sub).toNat).toLower]

/-- The grid-locator algorithm as worded by the spec (section 4.1):
shift to positive ranges, field = floor(lon'/20), floor(lat'/10) as
letters A+n; square = floor((lon' mod 20)/2), floor(lat' mod 10) as
digits; subsquare = the remainders after removing field and square
contributions, scaled by 12 and 24, floored, as lowercase a+n. -/
def grid_locator_spec (lat0 lon0 : ℚ) : String :=
  let lon := lon0 + 180
  let lat := lat0 + 90
  let lonF : ℤ := ⌊lon / 20⌋
  let latF : ℤ := ⌊lat / 10⌋
  let lonMod : ℚ := lon - 20 * (lonF : ℚ)
  let latMod : ℚ := lat - 10 * (latF : ℚ)
  let lonSq : ℤ := ⌊lonMod / 2⌋
  let latSq : ℤ := ⌊latMod⌋
  let lonRem : ℚ := lon - 20 * (lonF : ℚ) - 2 * (lonSq : ℚ)
  let latRem : ℚ := lat - 10 * (latF : ℚ) - (latSq : ℚ)
  let lonSub : ℤ := ⌊lonRem * 12⌋
  let latSub : ℤ := ⌊latRem * 24⌋
  String.mk [Char.ofNat (65 + lonF).toNat, Char.ofNat (65 + latF).toNat]
    ++ toString lonSq ++ toString latSq
    ++ String.mk [Char.ofNat (97 + lonSub).toNat, Char.ofNat (97 + latSub).toNat]

/-- The degrees-and-decimal-minutes conversion shared by both decoders
(src/gps_tab.py line 113 / src/radio_gui.py line 239, with degLen = 2 for
latitude and 3 for longitude): float(v[:degLen]) + float(v[degLen:]) / 60,
none when either float() call would raise ValueError. -/
def degMin (v : String) (degLen : Nat) : Option ℚ :=
  match pyFloat (v.take degLen), pyFloat (v.drop degLen) with
  | some d, some mins => some (d + mins / 60)
  | _, _ => none

/-- Decoded latitude in signed decimal degrees: the parenthesised value
times (1 if lat_h == 'N' else -1). -/
def latDD (v h : String) : Option ℚ :=
  (degMin v 2).map (fun m => m * (if h = "N" then 1 else -1))

/-- Decoded longitude in signed decimal degrees: the parenthesised value
times (1 if lon_h == 'E' else -1). -/
def lonDD (v h : String) : Option ℚ :=
  (degMin v 3).map (fun m => m * (if h = "E" then 1 else -1))

/-- Display state of the GPS window of src/gps_tab.py: the six labels
(initially the placeholder "--"), the last surfaced grid (initially
None), and the raw NMEA log. -/
structure GpsTabState where
  lblTime : String
  lblDate : String
  lblLat : String
  lblLon : String
  lblAlt : String
  lblGrid : String
  current_grid : Option String
  rawLog : List String
  deriving Repr, DecidableEq

/-- Initial GPS window state (src/gps_tab.py lines 46-90). -/
def initGpsTab : GpsTabState :=
  { lblTime := "--", lblDate := "--", lblLat := "--", lblLon := "--"
    lblAlt := "--", lblGrid := "--", current_grid := none, rawLog := [] }

/-- GPSWindow._format_coord (src/gps_tab.py lines 124-126). -/
def formatCoordTab (val hemi : String) : String :=
  let degLen := if hemi = "N" ∨ hemi = "S" then 2 else 3
  val.take degLen ++ "° " ++ val.drop degLen ++ " '" ++ hemi

/-- One loop iteration of GPSWindow.parse_gps (src/gps_tab.py lines
100-117).  The accumulator carries the loop-local lat_dd/lon_dd
variables; an error models the ValueError raised by float() on a
non-numeric coordinate field. -/
def gpsTabLine (st : GpsTabState) (acc : Option ℚ × Option ℚ) (line : String) :
    Except String (GpsTabState × (Option ℚ × Option ℚ)) :=
  if line.startsWith "$GPRMC" then
    let parts := line.splitOn ","
    if parts.length > 9 ∧ parts.getD 2 "" = "A" then
      let t := parts.getD 1 ""
      let d := parts.getD 9 ""
      .ok ({ st with
              lblTime := t.take 2 ++ ":" ++ (t.drop 2).take 2 ++ ":" ++ (t.drop 4).take 2
              lblDate := d.take 2 ++ "/" ++ (d.drop 2).take 2 ++ "/20" ++ (d.drop 4).take 2 },
           acc)
    else .ok (st, acc)
  else if line.startsWith "$GPGGA" then
    let parts := line.splitOn ","
    if parts.length > 9 ∧ parts.getD 6 "" ≠ "0" then
      let lat_val := parts.getD 2 ""
      let lat_h := parts.getD 3 ""
      let lon_val := parts.getD 4 ""
      let lon_h := parts.getD 5 ""
      match latDD lat_val lat_h, lonDD lon_val lon_h with
      | some la, some lo =>
          .ok ({ st with
                  lblLat := formatCoordTab lat_val lat_h
                  lblLon := formatCoordTab lon_val lon_h
                  lblAlt := parts.getD 9 "" ++ " m" },
               (some la, some lo))
      | _, _ => .error "ValueError: could not convert string to float"
    else .ok (st, acc)
  else .ok (st, acc)

/-- One iteration of the for-loop of GPSWindow.parse_gps threaded
through the Except monad: a ValueError raised inside the loop
short-circuits the remaining lines. -/
def gpsTabStep (r : Except String (GpsTabState × (Option ℚ × Option ℚ)))
    (l : String) : Except String (GpsTabState × (Option ℚ × Option ℚ)) :=
  match r with
  | .error e => .error e
  | .ok (st, acc) => gpsTabLine st acc l

/-- The line loop of GPSWindow.parse_gps. -/
def gpsTabLines (ls : List String) (st : GpsTabState)
    (acc : Option ℚ × Option ℚ) :
    Except String (GpsTabState × (Option ℚ × Option ℚ)) :=
  ls.foldl gpsTabStep (.ok (st, acc))

/-- GPSWindow.parse_gps (src/gps_tab.py lines 96-122) on one chunk of
subprocess output: append the stripped chunk to the raw log, run the
line loop, then surface the grid locator when both decimal coordinates
were obtained and the locator differs from the stored one.  The returned
list holds the grid values surfaced to the display by this call. -/
def gpsTabFeed (st : GpsTabState) (raw : String) :
    Except String (GpsTabState × List String) :=
  let st0 := { st with rawLog := st.rawLog ++ [pyRstrip raw] }
  match gpsTabLines (pySplitlines raw) st0 (none, none) with
  | .error e => .error e
  | .ok (st1, (some la, some lo)) =>
      let grid := latlon_to_grid la lo
      if some grid ≠ st1.current_grid then
        .ok ({ st1 with current_grid := some grid, lblGrid := grid }, [grid])
      else .ok (st1, [])
  | .ok (st1, _) => .ok (st1, [])

/-- Feed two chunks in sequence, concatenating surfaced grid updates. -/
def gpsTabFeed2 (st : GpsTabState) (c1 c2 : String) :
    Except String (GpsTabState × List String) :=
  match gpsTabFeed st c1 with
  | .error e => .error e
  | .ok (st1, e1) =>
      match gpsTabFeed st1 c2 with
      | .error e => .error e
      | .ok (st2, e2) => .ok (st2, e1 ++ e2)

/-- The grid updates surfaced by a feed call (empty when the call
raised). -/
def feedEvents (r : Except String (GpsTabState × List String)) : List String :=
  match r with
  | .ok (_, evs) => evs
  | .error _ => []

/-- The state after a feed call, or the supplied default when the call
raised. -/
def feedStateD (r : Except String (GpsTabState × List String)) (d : GpsTabState) :
    GpsTabState :=
  match r with
  | .ok (st, _) => st
  | .error _ => d

/-- Display state of the GPS tab of src/radio_gui.py: the retained RMC
time/date (initially None), the form labels (initially "--"), the header
labels, the gps_override flag and the raw log. -/
structure RadioState where
  rmc_time : Option String
  rmc_date : Option String
  gps_time : String
  gps_date : String
  gps_lat : String
  gps_lon : String
  gps_sats : String
  gps_alt : String
  gps_grid : String
  lblTime : String
  lblDate : String
  gps_override : Bool
  gps_raw : List String
  deriving Repr, DecidableEq

/-- Initial state of the radio_gui GPS tab (src/radio_gui.py lines
91-93 and 172-190). -/
def initRadio : RadioState :=
  { rmc_time := none, rmc_date := none, gps_time := "--", gps_date := "--"
    gps_lat := "--", gps_lon := "--", gps_sats := "--", gps_alt := "--"
    gps_grid := "--", lblTime := "", lblDate := "", gps_override := false
    gps_raw := [] }

/-- The local fmt helper of MainWindow.parse_gps (src/radio_gui.py lines
231-233). -/
def fmtRadio (v h : String) : String :=
  let degLen := if ((v.splitOn ".").getD 0 "").length ≤ 4 then 2 else 3
  v.take degLen ++ "° " ++ v.drop degLen ++ " '" ++ h ++ "'"

/-- One iteration of the line loop of MainWindow.parse_gps
(src/radio_gui.py lines 215-243), threaded through the Except monad.
A fix-data sentence is only examined when rmc_time is truthy; the Bool
flag records that the loop has executed `break` after fully processing
a fix-data sentence, in which case the remaining lines of the chunk are
ignored.  The list accumulates the grid values written to the grid
label. -/
def radioStep (r : Except String (RadioState × List String × Bool))
    (l : String) : Except String (RadioState × List String × Bool) :=
  match r with
  | .error e => .error e
  | .ok (st, evs, true) => .ok (st, evs, true)
  | .ok (st, evs, false) =>
    if l.startsWith "$GPRMC" then
      let parts := l.splitOn ","
      if parts.length > 9 ∧ parts.getD 2 "" = "A" then
        .ok ({ st with rmc_time := some (parts.getD 1 "")
                       rmc_date := some (parts.getD 9 "") }, evs, false)
      else .ok (st, evs, false)
    else if l.startsWith "$GPGGA" ∧ truthyOpt st.rmc_time then
      let p2 := l.splitOn ","
      if p2.length > 9 ∧ p2.getD 6 "" ≠ "0" then
        let lat := p2.getD 2 ""
        let lat_h := p2.getD 3 ""
        let lon := p2.getD 4 ""
        let lon_h := p2.getD 5 ""
        let sats := p2.getD 7 ""
        let alt := p2.getD 9 ""
        let t := st.rmc_time.getD ""
        let d := st.rmc_date.getD ""
        let timeText := t.take 2 ++ ":" ++ (t.drop 2).take 2 ++ ":" ++ (t.drop 4).take 2
        let dateText := (d.drop 2).take 2 ++ "/" ++ (d.drop 4).take 2 ++ "/" ++ d.take 2
        let st1 := { st with
          gps_time := timeText, lblTime := timeText
          gps_date := dateText, lblDate := dateText
          gps_lat := fmtRadio lat lat_h, gps_lon := fmtRadio lon lon_h
          gps_sats := sats, gps_alt := alt ++ " m" }
        match latDD lat lat_h, lonDD lon lon_h with
        | some la, some lo =>
            let grid := latlon_to_grid la lo
            .ok ({ st1 with gps_grid := grid, gps_override := true }, evs ++ [grid], true)
        | _, _ => .error "ValueError: could not convert string to float"
      else .ok (st, evs, false)
    else .ok (st, evs, false)

/-- The line loop of MainWindow.parse_gps: fold the per-line step over
the chunk's lines and drop the break flag. -/
def radioLines (ls : List String) (st : RadioState) :
    Except String (RadioState × List String) :=
  match ls.foldl radioStep (.ok (st, [], false)) with
  | .error e => .error e
  | .ok (st', evs, _) => .ok (st', evs)

/-- MainWindow.parse_gps (src/radio_gui.py lines 211-243) on one chunk:
split on the newline character, append the stripped chunk to the raw
log, then run the breaking line loop. -/
def radioFeed (st : RadioState) (raw : String) :
    Except String (RadioState × List String) :=
  let lines := raw.splitOn "\n"
  let st0 := { st with gps_raw := st.gps_raw ++ [pyRstrip raw] }
  radioLines lines st0

/-- The grid updates surfaced by a radio_gui feed call. -/
def radioEvents (r : Except String (RadioState × List String)) : List String :=
  match r with
  | .ok (_, evs) => evs
  | .error _ => []

/-- The state after a radio_gui feed call, or the default when it
raised. -/
def radioStateD (r : Except String (RadioState × List String)) (d : RadioState) :
    RadioState :=
  match r with
  | .ok (st, _) => st
  | .error _ => d

/-- A recommended-minimum sentence that the radio_gui decoder records
with a truthy time: discriminator, field count, active status, and a
non-empty time field. -/
def activeRMC (l : String) : Prop :=
  l.startsWith "$GPRMC" ∧ (l.splitOn ",").length > 9 ∧
    (l.splitOn ",").getD 2 "" = "A" ∧ (l.splitOn ",").getD 1 "" ≠ ""

/-- Python dict/SectionProxy .get(key, default): the stored value when
the key is present, otherwise the default. -/
def cfgGet (c : String → Option String) (key dflt : String) : String :=
  (c key).getD dflt

/-- The configuration with no keys set (missing config file or missing
section). -/
def emptyCfg : String → Option String := fun _ => none

/-- os.path.expanduser relative to a home directory: expand a leading
"~/" to the home directory. -/
def expandUser (home s : String) : String :=
  if s.startsWith "~/" then home ++ s.drop 1 else s

/-- build_service_commands (src/pat_tab.py lines 15-26, identical in
src/radio_gui.py lines 22-33): the three argument vectors, with
configparser .get fallbacks for every missing key. -/
def build_service_commands (rig audio : String → Option String) (home : String) :
    List (List String) :=
  let model := cfgGet rig "model" "2050"
  let device := cfgGet rig "device" "/dev/ttyUSB0"
  let baud := cfgGet rig "baud" "9600"
  let ptt := cfgGet rig "ptt_type" "RTS"
  let dcd := cfgGet rig "dcd_type" "RIG"
  let hw := cfgGet audio "hw" "0,0"
  [ ["rigctld", "-m", model, "-r", device, "-s", baud, "-P", ptt, "-D", dcd],
    ["./ardopcf", "--logdir", expandUser home "~/ardop_logs", "-p", device,
     "8515", "plughw:" ++ hw, "plughw:" ++ hw],
    ["pat", "--listen=ardop,telnet", "http"] ]

/-- The rig-control daemon argument-vector template of spec section 4.2. -/
def rigctldTemplate (model device baud ptt dcd : String) : List String :=
  ["rigctld", "-m", model, "-r", device, "-s", baud, "-P", ptt, "-D", dcd]

/-- The modem argument-vector template of spec section 4.2. -/
def ardopTemplate (logdir device hw : String) : List String :=
  ["./ardopcf", "--logdir", logdir, "-p", device, "8515",
   "plughw:" ++ hw, "plughw:" ++ hw]

/-- The mail-client argument vector of spec section 4.2. -/
def patTemplate : List String :=
  ["pat", "--listen=ardop,telnet", "http"]

/-- build_commands as worded by the spec (section 4.2): substitute
configuration values into the three fixed templates, using the
documented fallback defaults (model "2050", device "/dev/ttyUSB0", baud
"9600", PTT "RTS", DCD "RIG", audio hardware id "0,0") for any missing
key. -/
def build_commands_spec (rig audio : String → Option String) (home : String) :
    List (List String) :=
  [ rigctldTemplate (cfgGet rig "model" "2050") (cfgGet rig "device" "/dev/ttyUSB0")
      (cfgGet rig "baud" "9600") (cfgGet rig "ptt_type" "RTS") (cfgGet rig "dcd_type" "RIG"),
    ardopTemplate (expandUser home "~/ardop_logs") (cfgGet rig "device" "/dev/ttyUSB0")
      (cfgGet audio "hw" "0,0"),
    patTemplate ]

/-- Observable supervisor actions: spawning a child process with an
argument vector, killing a tracked child, and the force-kill-by-name
sweep for one of the three known process names. -/
inductive SupEvent where
  | spawn (cmd : List String)
  | kill (cmd : List String)
  | sweep (name : String)
  deriving Repr, DecidableEq

/-- Supervisor state of src/pat_tab.py MainWindow: the tracked process
handles (identified by their argument vectors) and the running flag. -/
structure SupState where
  processes : List (List String)
  services_running : Bool
  deriving Repr, DecidableEq

/-- Initial supervisor state (src/pat_tab.py lines 33-34). -/
def initSup : SupState := { processes := [], services_running := false }

/-- MainWindow.toggle_services (src/pat_tab.py lines 72-87, identical in
src/radio_gui.py lines 245-260): when not running, spawn the three
service commands and set the flag; otherwise kill every tracked process,
run the kill-by-name sweep for the three known names, clear the handles
and reset the flag. -/
def toggle_services (rig audio : String → Option String) (home : String)
    (s : SupState) : SupState × List SupEvent :=
  if !s.services_running then
    let cmds := build_service_commands rig audio home
    ({ processes := s.processes ++ cmds, services_running := true },
     cmds.map .spawn)
  else
    ({ processes := [], services_running := false },
     s.processes.map .kill ++ [.sweep "rigctld", .sweep "ardopcf", .sweep "pat"])

/-- build_service_commands of src/pat_gui.py lines 25-39: three argument
vectors from the selected usb device and (card, hw) audio pair. -/
def pgBuild (home usb : String) (audio : String × String) : List (List String) :=
  let hw := audio.2
  [ ["rigctld", "-m", "2050", "-r", "/dev/" ++ usb, "-s", "9600", "-P", "RTS", "-D", "RIG"],
    ["./ardopcf", "--logdir", expandUser home "~/ardop_logs", "-p", "/dev/" ++ usb,
     "8515", "plughw:" ++ hw, "plughw:" ++ hw],
    ["pat", "--listen=ardop,telnet", "http"] ]

/-- RadioGUI.start_services (src/pat_gui.py lines 121-140): when no USB
device is selected (the selector holds the empty string) or no audio
pair was parsed (parse_audio returned None), show a warning and return
without spawning (lines 124-126); otherwise spawn the three commands
and append their handles to the tracked list.  There is no check of any
running flag. -/
def pgStart (home usb : String) (audio : Option (String × String))
    (procs : List (List String)) : List (List String) × List SupEvent :=
  if usb = "" then (procs, [])
  else
    match audio with
    | none => (procs, [])
    | some a =>
      let cmds := pgBuild home usb a
      (procs ++ cmds, cmds.map .spawn)

/-- RadioGUI.stop_services (src/pat_gui.py lines 142-154): terminate
every tracked process, run killall for each of the three known names,
and clear the tracked list. -/
def pgStop (procs : List (List String)) : List (List String) × List SupEvent :=
  ([], procs.map .kill ++ [.sweep "rigctld", .sweep "ardopcf", .sweep "pat"])

/-- Outcome of subprocess.run(..., check=True) on a probe command: the
captured stdout on success, CalledProcessError on a nonzero exit status,
FileNotFoundError when the executable is absent. -/
inductive RunOutcome where
  | success (out : String)
  | exitFailure
  | fileNotFound
  deriving Repr, DecidableEq

/-- The rigctl -l output parse of list_rigs (src/config_tab.py lines
144-147 / src/radio_gui.py lines 47-50): whitespace-split each line and
keep the first three fields of lines with at least three. -/
def rigLinesParse (out : String) : List (String × String × String) :=
  (pySplitlines out).foldl
    (fun acc line =>
      let parts := pySplitWs line
      if parts.length ≥ 3 then acc ++ [(parts.getD 0 "", parts.getD 1 "", parts.getD 2 "")]
      else acc)
    []

/-- list_rigs (src/config_tab.py lines 140-150, identical in
src/radio_gui.py lines 43-53): the try block catches only
CalledProcessError; a FileNotFoundError from an absent executable
escapes to the caller. -/
def list_rigs (r : RunOutcome) : Except String (List (String × String × String)) :=
  match r with
  | .success out => .ok (rigLinesParse out)
  | .exitFailure => .ok []
  | .fileNotFound => .error "FileNotFoundError"

/-- The deduplicating accumulation loop of list_audio_pairs
(src/config_tab.py lines 156-158 / src/radio_gui.py lines 60-62):
append each regex match not already collected. -/
def audioDedup (ms : List (String × String)) : List (String × String) :=
  ms.foldl (fun pairs p => if p ∈ pairs then pairs else pairs ++ [p]) []

/-- list_audio_pairs (src/config_tab.py lines 152-161, identical in
src/radio_gui.py lines 56-65), with the regex engine abstracted as the
findAll argument mapping probe output text to its ordered list of
(card, hw) matches.  Only CalledProcessError is caught. -/
def list_audio_pairsE (findAll : String → List (String × String)) (r : RunOutcome) :
    Except String (List (String × String)) :=
  match r with
  | .success out => .ok (audioDedup (findAll out))
  | .exitFailure => .ok []
  | .fileNotFound => .error "FileNotFoundError"

/-- Keep the first occurrence of each element, in order: the reference
description of first-occurrence deduplication used to state claim C10. -/
def firstOccurDedup : List (String × String) → List (String × String)
  | [] => []
  | a :: l => a :: firstOccurDedup (l.filter (· ≠ a))
termination_by l => l.length
decreasing_by
  simp only [List.length_cons]
  exact Nat.lt_succ_of_le (List.length_filter_le _ _)

/-- A valid fix-data sentence (one chunk, newline-terminated). -/
def ggaSentence : String :=
  "$GPGGA,123519,4807.038,N,01131.000,E,1,08,0.9,545.4,M,46.9,M,,*47\n"

/-- A valid recommended-minimum sentence (one chunk, newline-terminated). -/
def rmcSentence : String :=
  "$GPRMC,120000,A,4807.038,N,01131.000,E,022.4,084.4,230394,003.1,W\n"

/-- The valid recommended-minimum sentence as a single line. -/
def rmcLine : String :=
  "$GPRMC,120000,A,4807.038,N,01131.000,E,022.4,084.4,230394,003.1,W"

/-- The valid fix-data sentence as a single line. -/
def ggaLine : String :=
  "$GPGGA,123519,4807.038,N,01131.000,E,1,08,0.9,545.4,M,46.9,M,,*47"

/-- The first fragment of the fix-data sentence split mid-line. -/
def ggaFragmentA : String := "$GP"

/-- The second fragment of the fix-data sentence split mid-line. -/
def ggaFragmentB : String :=
  "GGA,123519,4807.038,N,01131.000,E,1,08,0.9,545.4,M,46.9,M,,*47\n"

/-- A fix-data sentence that passes the field-count and fix-quality
checks but has empty coordinate fields, so float() raises. -/
def ggaMalformed : String := "$GPGGA,,,,,,1,,,,"

/-- A fix-data sentence passing all decoder checks whose latitude
hemisphere field is the letter Z, neither North nor South. -/
def ggaHemisphereZ : String := "$GPGGA,0,1000.0,Z,01000.0,E,1,,,5,"

/-- radio_gui decoder state after feeding the recommended-minimum
sentence from the initial state. -/
def radioAfter1 : RadioState :=
  radioStateD (radioFeed initRadio rmcSentence) initRadio

/-- radio_gui decoder state after additionally feeding the fix-data
sentence, which surfaces the grid locator once. -/
def radioAfter2 : RadioState :=
  radioStateD (radioFeed radioAfter1 ggaSentence) initRadio

/-! ## Helper lemmas -/

/-- Python int() agrees with the value itself on float values that are
already integral, regardless of sign. -/
theorem pyInt_intCast (n : ℤ) : pyInt (n : ℚ) = n := by
  unfold pyInt
  split
  · exact Int.floor_intCast n
  · rw [← Int.cast_neg, Int.floor_intCast, neg_neg]

/-- Python int() is the floor on nonnegative values. -/
theorem pyInt_of_nonneg (q : ℚ) (h : 0 ≤ q) : pyInt q = ⌊q⌋ := by
  unfold pyInt
  exact if_pos h

/-- The Python float modulo is nonnegative for a positive modulus. -/
theorem fmod_nonneg (a b : ℚ) (hb : 0 < b) : 0 ≤ a - b * (⌊a / b⌋ : ℚ) := by
  rw [mul_comm]
  exact Int.sub_floor_div_mul_nonneg a hb

/-- The Python float modulo is below the (positive) modulus. -/
theorem fmod_lt (a b : ℚ) (hb : 0 < b) : a - b * (⌊a / b⌋ : ℚ) < b := by
  rw [mul_comm]
  exact Int.sub_floor_div_mul_lt a hb

/-- Lowercasing the n-th uppercase letter gives the n-th lowercase
letter. -/
theorem upper_toLower :
    ∀ n : ℕ, n < 26 → (Char.ofNat (65 + n)).toLower = Char.ofNat (97 + n) := by
  decide

/-- The subsquare character built by the code, chr then .lower(), equals
the lowercase character built directly from the floor, provided the
scaled remainder lies in the valid range. -/
theorem pyInt_sub_char (r c : ℚ) (h0 : 0 ≤ r * c) (hlt : r * c < 24) :
    (Char.ofNat (65 + pyInt (r * c)).toNat).toLower = Char.ofNat (97 + ⌊r * c⌋).toNat := by
  rw [pyInt_of_nonneg _ h0]
  have hs0 : 0 ≤ ⌊r * c⌋ := Int.floor_nonneg.2 h0
  have hs : ⌊r * c⌋ < 24 := Int.floor_lt.2 (by push_cast; exact hlt)
  rw [show (65 + ⌊r * c⌋).toNat = 65 + (⌊r * c⌋).toNat from by omega,
      show (97 + ⌊r * c⌋).toNat = 97 + (⌊r * c⌋).toNat from by omega]
  exact upper_toLower _ (by omega)

/-- A grid locator string is never the "--" placeholder: it always has
at least four characters. -/
theorem latlon_to_grid_ne_placeholder (la lo : ℚ) : latlon_to_grid la lo ≠ "--" := by
  simp only [latlon_to_grid]
  intro hEq
  have h := congrArg String.length hEq
  rw [String.length_append, String.length_append, String.length_append] at h
  have h2 : ∀ a b : Char, (String.mk [a, b]).length = 2 := fun _ _ => rfl
  rw [h2, h2] at h
  have h3 : ("--" : String).length = 2 := rfl
  rw [h3] at h
  omega

/-- A line that is not a fix-data sentence is processed without error
and leaves the loop-local coordinate accumulator unchanged. -/
theorem gpsTabLine_not_gga (st : GpsTabState) (acc : Option ℚ × Option ℚ) (l : String)
    (hl : ¬ l.startsWith "$GPGGA") :
    ∃ st2, gpsTabLine st acc l = .ok (st2, acc) := by
  simp only [gpsTabLine]
  rw [if_neg hl]
  split
  · split
    · exact ⟨_, rfl⟩
    · exact ⟨_, rfl⟩
  · exact ⟨_, rfl⟩

/-- Processing a single line never touches the raw log, the stored grid
or the grid label. -/
theorem gpsTabLine_preserves (st : GpsTabState) (acc acc2 : Option ℚ × Option ℚ)
    (l : String) (st2 : GpsTabState) (h : gpsTabLine st acc l = .ok (st2, acc2)) :
    st2.rawLog = st.rawLog ∧ st2.current_grid = st.current_grid ∧ st2.lblGrid = st.lblGrid := by
  simp only [gpsTabLine] at h
  split at h
  all_goals try split at h
  all_goals try split at h
  all_goals try split at h
  all_goals first
    | exact Except.noConfusion h
    | (simp only [Except.ok.injEq, Prod.mk.injEq] at h
       obtain ⟨h1, h2⟩ := h
       subst h1
       exact ⟨rfl, rfl, rfl⟩)

/-- A raised ValueError propagates through the rest of the line loop. -/
theorem gpsTabFold_error :
    ∀ (ls : List String) (e : String), ls.foldl gpsTabStep (.error e) = .error e := by
  intro ls
  induction ls with
  | nil => exact fun e => rfl
  | cons l ls ih => exact fun e => ih e

/-- The line loop never touches the raw log, the stored grid or the
grid label. -/
theorem gpsTabFold_preserves :
    ∀ (ls : List String) (st : GpsTabState) (acc : Option ℚ × Option ℚ)
      (st' : GpsTabState) (acc' : Option ℚ × Option ℚ),
      ls.foldl gpsTabStep (.ok (st, acc)) = .ok (st', acc') →
      st'.rawLog = st.rawLog ∧ st'.current_grid = st.current_grid ∧
        st'.lblGrid = st.lblGrid := by
  intro ls
  induction ls with
  | nil =>
    intro st acc st' acc' h
    injection h with h1
    injection h1 with ha hb
    subst ha
    exact ⟨rfl, rfl, rfl⟩
  | cons l ls ih =>
    intro st acc st' acc' h
    rw [List.foldl_cons] at h
    cases hline : gpsTabStep (.ok (st, acc)) l with
    | error e =>
      rw [hline, gpsTabFold_error] at h
      exact Except.noConfusion h
    | ok p =>
      obtain ⟨st2, acc2⟩ := p
      rw [hline] at h
      have hline2 : gpsTabLine st acc l = .ok (st2, acc2) := hline
      obtain ⟨p1, p2, p3⟩ := gpsTabLine_preserves st acc acc2 l st2 hline2
      obtain ⟨q1, q2, q3⟩ := ih st2 acc2 st' acc' h
      exact ⟨q1.trans p1, q2.trans p2, q3.trans p3⟩

/-- On a chunk without fix-data sentences the line loop terminates
normally with the coordinate accumulator untouched. -/
theorem gpsTabFold_no_gga :
    ∀ (ls : List String) (st : GpsTabState) (acc : Option ℚ × Option ℚ),
      (∀ l ∈ ls, ¬ l.startsWith "$GPGGA") →
      ∃ st', ls.foldl gpsTabStep (.ok (st, acc)) = .ok (st', acc) := by
  intro ls
  induction ls with
  | nil => exact fun st acc _ => ⟨st, rfl⟩
  | cons l ls ih =>
    intro st acc hno
    obtain ⟨st2, h2⟩ := gpsTabLine_not_gga st acc l (hno l (List.mem_cons_self l ls))
    obtain ⟨st', h'⟩ := ih st2 acc (fun x hx => hno x (List.mem_cons_of_mem _ hx))
    refine ⟨st', ?_⟩
    rw [List.foldl_cons]
    have hstep : gpsTabStep (.ok (st, acc)) l = .ok (st2, acc) := h2
    rw [hstep]
    exact h'

/-- A raised ValueError propagates through the rest of the radio_gui
line loop. -/
theorem radioFold_error :
    ∀ (ls : List String) (e : String), ls.foldl radioStep (.error e) = .error e := by
  intro ls
  induction ls with
  | nil => exact fun e => rfl
  | cons l ls ih => exact fun e => ih e

/-- Characterisation of a single radio_gui loop iteration: either the
surfaced grid list is unchanged, the grid label is untouched, and the
stored RMC time can only have become truthy through an active
recommended-minimum line; or the RMC time was already truthy and a fresh
grid locator was computed and surfaced. -/
theorem radioStep_spec (st : RadioState) (evs : List String) (flag : Bool) (l : String)
    (st2 : RadioState) (evs2 : List String) (flag2 : Bool)
    (h : radioStep (.ok (st, evs, flag)) l = .ok (st2, evs2, flag2)) :
    (evs2 = evs ∧ st2.gps_grid = st.gps_grid ∧
      (truthyOpt st2.rmc_time = true → truthyOpt st.rmc_time = true ∨ activeRMC l)) ∨
    (truthyOpt st.rmc_time = true ∧ ∃ la lo : ℚ,
      st2.gps_grid = latlon_to_grid la lo ∧ evs2 = evs ++ [latlon_to_grid la lo]) := by
  cases flag with
  | true =>
    simp only [radioStep, Except.ok.injEq, Prod.mk.injEq] at h
    obtain ⟨h1, h2, h3⟩ := h
    subst h1; subst h2
    exact Or.inl ⟨rfl, rfl, fun ht => Or.inl ht⟩
  | false =>
    simp only [radioStep] at h
    split at h
    · rename_i hrmc
      split at h
      · rename_i hcond
        simp only [Except.ok.injEq, Prod.mk.injEq] at h
        obtain ⟨h1, h2, h3⟩ := h
        subst h1; subst h2
        refine Or.inl ⟨rfl, rfl, fun ht => Or.inr ⟨hrmc, hcond.1, hcond.2, ?_⟩⟩
        simpa [truthyOpt] using ht
      · simp only [Except.ok.injEq, Prod.mk.injEq] at h
        obtain ⟨h1, h2, h3⟩ := h
        subst h1; subst h2
        exact Or.inl ⟨rfl, rfl, fun ht => Or.inl ht⟩
    · split at h
      · rename_i hgga
        split at h
        · split at h
          · rename_i la lo hlat hlon
            simp only [Except.ok.injEq, Prod.mk.injEq] at h
            obtain ⟨h1, h2, h3⟩ := h
            subst h1; subst h2
            exact Or.inr ⟨hgga.2, la, lo, rfl, rfl⟩
          · exact Except.noConfusion h
        · simp only [Except.ok.injEq, Prod.mk.injEq] at h
          obtain ⟨h1, h2, h3⟩ := h
          subst h1; subst h2
          exact Or.inl ⟨rfl, rfl, fun ht => Or.inl ht⟩
      · simp only [Except.ok.injEq, Prod.mk.injEq] at h
        obtain ⟨h1, h2, h3⟩ := h
        subst h1; subst h2
        exact Or.inl ⟨rfl, rfl, fun ht => Or.inl ht⟩

/-- Invariant of the radio_gui line loop: grid events appear only after
an active recommended-minimum sentence has been observed (in this chunk
or before), and a grid label once set never reverts to the placeholder. -/
theorem radioFold_inv :
    ∀ (ls : List String) (st : RadioState) (evs : List String) (flag : Bool)
      (st' : RadioState) (evs' : List String) (flag' : Bool),
      ls.foldl radioStep (.ok (st, evs, flag)) = .ok (st', evs', flag') →
      (truthyOpt st.rmc_time = false → evs' ≠ evs → ∃ l ∈ ls, activeRMC l) ∧
      (st.gps_grid ≠ "--" → st'.gps_grid ≠ "--") := by
  intro ls
  induction ls with
  | nil =>
    intro st evs flag st' evs' flag' h
    simp only [List.foldl_nil, Except.ok.injEq, Prod.mk.injEq] at h
    obtain ⟨h1, h2, h3⟩ := h
    subst h1; subst h2
    exact ⟨fun _ hne => absurd rfl hne, fun hg => hg⟩
  | cons l ls ih =>
    intro st evs flag st' evs' flag' h
    rw [List.foldl_cons] at h
    cases hstep : radioStep (.ok (st, evs, flag)) l with
    | error e =>
      rw [hstep, radioFold_error] at h
      exact Except.noConfusion h
    | ok trip =>
      obtain ⟨st2, evs2, flag2⟩ := trip
      rw [hstep] at h
      have hspec := radioStep_spec st evs flag l st2 evs2 flag2 hstep
      have hih := ih st2 evs2 flag2 st' evs' flag' h
      rcases hspec with ⟨he, hg, hr⟩ | ⟨htr, la, lo, hg, he⟩
      · refine ⟨fun hf hne => ?_, fun hgr => hih.2 (by rw [hg]; exact hgr)⟩
        by_cases ht2 : truthyOpt st2.rmc_time = true
        · rcases hr ht2 with htru | hact
          · rw [hf] at htru
            exact absurd htru (by simp)
          · exact ⟨l, List.mem_cons_self l ls, hact⟩
        · have hf2 : truthyOpt st2.rmc_time = false := by
            cases hcase : truthyOpt st2.rmc_time
            · rfl
            · exact absurd hcase ht2
          obtain ⟨l', hl', ha⟩ := hih.1 hf2 (fun hcon => hne (hcon.trans he))
          exact ⟨l', List.mem_cons_of_mem _ hl', ha⟩
      · refine ⟨fun hf hne => ?_, fun hgr => hih.2 ?_⟩
        · rw [hf] at htr
          exact absurd htr (by simp)
        · rw [hg]
          exact latlon_to_grid_ne_placeholder la lo

/-- The accumulation loop of list_audio_pairs computes first-occurrence
deduplication, for any starting accumulator. -/
theorem audioDedup_go_eq :
    ∀ (l acc : List (String × String)),
      l.foldl (fun pairs p => if p ∈ pairs then pairs else pairs ++ [p]) acc
        = acc ++ firstOccurDedup (l.filter (fun x => decide (x ∉ acc))) := by
  intro l
  induction l with
  | nil => intro acc; simp [firstOccurDedup]
  | cons a l ih =>
    intro acc
    simp only [List.foldl_cons]
    by_cases ha : a ∈ acc
    · rw [if_pos ha, ih acc, List.filter_cons_of_neg (by simp [ha])]
    · rw [if_neg ha, ih (acc ++ [a]), List.filter_cons_of_pos (by simp [ha])]
      have hfil : (fun x : String × String => decide (x ∉ acc ++ [a]))
          = fun x : String × String => decide (x ∉ acc) && decide (x ≠ a) := by
        funext x
        by_cases hx1 : x ∈ acc <;> by_cases hx2 : x = a <;>
          simp [hx1, hx2, List.mem_append]
      rw [hfil, ← List.filter_filter, firstOccurDedup]
      simp [Bool.and_comm]

/-- Membership is preserved by first-occurrence deduplication. -/
theorem firstOccurDedup_mem :
    ∀ (l : List (String × String)) (x : String × String),
      x ∈ firstOccurDedup l ↔ x ∈ l := by
  intro l
  induction l using firstOccurDedup.induct with
  | case1 => intro x; simp [firstOccurDedup]
  | case2 a l ih =>
    intro x
    rw [firstOccurDedup]
    simp only [List.mem_cons]
    constructor
    · rintro (rfl | hx)
      · exact Or.inl rfl
      · exact Or.inr (List.mem_of_mem_filter ((ih x).1 hx))
    · rintro (rfl | hx)
      · exact Or.inl rfl
      · by_cases hxa : x = a
        · exact Or.inl hxa
        · exact Or.inr ((ih x).2 (List.mem_filter.2 ⟨hx, by simp [hxa]⟩))

/-- First-occurrence deduplication yields a duplicate-free list. -/
theorem firstOccurDedup_nodup :
    ∀ l : List (String × String), (firstOccurDedup l).Nodup := by
  intro l
  induction l using firstOccurDedup.induct with
  | case1 => simp [firstOccurDedup]
  | case2 a l ih =>
    rw [firstOccurDedup]
    refine List.nodup_cons.2 ⟨fun hmem => ?_, ih⟩
    have hm := (firstOccurDedup_mem _ a).1 hmem
    rw [List.mem_filter] at hm
    exact absurd hm.2 (by simp)

/-- First-occurrence deduplication yields a sublist of the input, so
elements stay in input order. -/
theorem firstOccurDedup_sublist :
    ∀ l : List (String × String), (firstOccurDedup l).Sublist l := by
  intro l
  induction l using firstOccurDedup.induct with
  | case1 => simp [firstOccurDedup]
  | case2 a l ih =>
    rw [firstOccurDedup]
    exact (ih.trans (List.filter_sublist l)).cons₂ a

/-! ## Claims -/

/-- C1: for every latitude in [-90, 90) and longitude in [-180, 180),
latlon_to_grid returns exactly the 6-character Maidenhead locator given
by the spec's formulas (field letters from floor(lon'/20), floor(lat'/10);
square digits from floor((lon' mod 20)/2), floor(lat' mod 10); lowercase
subsquare letters from the remainders scaled by 12 and 24, floored), and
in particular latlon_to_grid 40 (-105) is the case-correct string
"DN70ma". -/
theorem C1_grid_matches_spec (lat lon : ℚ)
    (h1 : -90 ≤ lat) (h2 : lat < 90) (h3 : -180 ≤ lon) (h4 : lon < 180) :
    latlon_to_grid lat lon = grid_locator_spec lat lon ∧
      latlon_to_grid 40 (-105) = "DN70ma" := by
  refine ⟨?_, by with_unfolding_all rfl⟩
  have hLr0 : (0:ℚ) ≤ lon + 180 - 20 * (⌊(lon + 180) / 20⌋ : ℚ)
      - 2 * (⌊(lon + 180 - 20 * (⌊(lon + 180) / 20⌋ : ℚ)) / 2⌋ : ℚ) :=
    fmod_nonneg _ _ (by norm_num)
  have hLr1 : lon + 180 - 20 * (⌊(lon + 180) / 20⌋ : ℚ)
      - 2 * (⌊(lon + 180 - 20 * (⌊(lon + 180) / 20⌋ : ℚ)) / 2⌋ : ℚ) < 2 :=
    fmod_lt _ _ (by norm_num)
  have hBr0 : (0:ℚ) ≤ lat + 90 - 10 * (⌊(lat + 90) / 10⌋ : ℚ)
      - (⌊lat + 90 - 10 * (⌊(lat + 90) / 10⌋ : ℚ)⌋ : ℚ) := by
    have h := Int.fract_nonneg (α := ℚ) (lat + 90 - 10 * (⌊(lat + 90) / 10⌋ : ℚ))
    rw [← Int.self_sub_floor] at h
    exact h
  have hBr1 : lat + 90 - 10 * (⌊(lat + 90) / 10⌋ : ℚ)
      - (⌊lat + 90 - 10 * (⌊(lat + 90) / 10⌋ : ℚ)⌋ : ℚ) < 1 := by
    have h := Int.fract_lt_one (α := ℚ) (lat + 90 - 10 * (⌊(lat + 90) / 10⌋ : ℚ))
    rw [← Int.self_sub_floor] at h
    exact h
  simp only [latlon_to_grid, grid_locator_spec, pyFFloorDiv, pyFMod, pyInt_intCast,
    div_one, mul_one]
  set F : ℤ := ⌊(lon + 180) / 20⌋ with hF
  set G : ℤ := ⌊(lat + 90) / 10⌋ with hG
  set M : ℚ := lon + 180 - 20 * (F : ℚ) with hM
  set N : ℚ := lat + 90 - 10 * (G : ℚ) with hN
  set S : ℤ := ⌊M / 2⌋ with hS
  set T : ℤ := ⌊N⌋ with hT
  rw [show lon + 180 - (F : ℚ) * 20 - (S : ℚ) * 2 = M - 2 * (S : ℚ) from by rw [hM]; ring,
      show lat + 90 - (G : ℚ) * 10 - (T : ℚ) = N - (T : ℚ) from by rw [hN]; ring]
  rw [pyInt_sub_char (M - 2 * (S : ℚ)) 12 (mul_nonneg hLr0 (by norm_num)) (by nlinarith),
      pyInt_sub_char (N - (T : ℚ)) 24 (mul_nonneg hBr0 (by norm_num)) (by nlinarith)]

/-- Witness for C1 at the reference point latitude 40, longitude -105. -/
theorem C1_grid_matches_spec_witness :
    latlon_to_grid 40 (-105) = grid_locator_spec 40 (-105) ∧
      latlon_to_grid 40 (-105) = "DN70ma" :=
  C1_grid_matches_spec 40 (-105) (by norm_num) (by norm_num) (by norm_num) (by norm_num)

/-- C2 counterexample: a fix-data sentence accepted by the decoder (11
fields, fix quality "1") whose latitude hemisphere field is "Z" — neither
North nor South — is negated by the conversion: the decoded latitude for
field "1000.0" is -10 although "Z" is not South, and feeding the whole
sentence to the gps_tab decoder surfaces the southern-hemisphere grid
"JI50aa" instead of the unnegated "JK50aa". -/
theorem C2_counterexample :
    latDD "1000.0" "Z" = some (-10) ∧
      feedEvents (gpsTabFeed initGpsTab ggaHemisphereZ) = ["JI50aa"] ∧
      ("Z" : String) ≠ "S" :=
  ⟨by with_unfolding_all rfl, by with_unfolding_all rfl, by decide⟩

/-- C2 amended: the decoder converts a coordinate field to
degrees + minutes/60 — degrees being the first 2 (latitude) or 3
(longitude) characters — and negates exactly when the hemisphere field
differs from "N" (latitude) resp. "E" (longitude); consequently, for a
nonnegative magnitude, hemisphere "N"/"E" gives a nonnegative decoded
value and any other hemisphere (in particular "S"/"W") a nonpositive
one. -/
theorem C2_amended :
    (∀ v h m, degMin v 2 = some m → latDD v h = some (if h = "N" then m else -m)) ∧
    (∀ v h m, degMin v 3 = some m → lonDD v h = some (if h = "E" then m else -m)) ∧
    (∀ v m, degMin v 2 = some m → 0 ≤ m →
      latDD v "N" = some m ∧ ∀ h, h ≠ "N" → ∃ q, latDD v h = some q ∧ q ≤ 0) ∧
    (∀ v m, degMin v 3 = some m → 0 ≤ m →
      lonDD v "E" = some m ∧ ∀ h, h ≠ "E" → ∃ q, lonDD v h = some q ∧ q ≤ 0) := by
  have hlat : ∀ v h m, degMin v 2 = some m → latDD v h = some (if h = "N" then m else -m) := by
    intro v h m hm
    rcases eq_or_ne h "N" with hh | hh <;> simp [latDD, hm, hh]
  have hlon : ∀ v h m, degMin v 3 = some m → lonDD v h = some (if h = "E" then m else -m) := by
    intro v h m hm
    rcases eq_or_ne h "E" with hh | hh <;> simp [lonDD, hm, hh]
  refine ⟨hlat, hlon, ?_, ?_⟩
  · intro v m hm h0
    refine ⟨by simpa using hlat v "N" m hm, fun h hh => ⟨-m, ?_, by linarith⟩⟩
    simpa [hh] using hlat v h m hm
  · intro v m hm h0
    refine ⟨by simpa using hlon v "E" m hm, fun h hh => ⟨-m, ?_, by linarith⟩⟩
    simpa [hh] using hlon v h m hm

/-- Witness for C2 on the latitude field "4807.038". -/
theorem C2_amended_witness :
    latDD "4807.038" "N" = some (48 + (7 + 38/1000)/60 : ℚ) ∧
      ∀ h, h ≠ "N" → ∃ q, latDD "4807.038" h = some q ∧ q ≤ 0 :=
  C2_amended.2.2.1 "4807.038" (48 + (7 + 38/1000)/60 : ℚ)
    (by with_unfolding_all rfl) (by norm_num)

/-- C3 counterexample: the gps_tab decoder surfaces position, altitude
and grid locator from a single valid fix-data sentence although no
recommended-minimum sentence has ever been observed (the chunk contains
no line starting with the recommended-minimum discriminator), refuting
the claim that a Fix is surfaced only once both sentence types have been
seen. -/
theorem C3_counterexample :
    ((pySplitlines ggaSentence).all fun l => !l.startsWith "$GPRMC") = true ∧
      feedEvents (gpsTabFeed initGpsTab ggaSentence) = ["JN58sc"] ∧
      (feedStateD (gpsTabFeed initGpsTab ggaSentence) initGpsTab).lblLat = "48° 07.038 'N" ∧
      (feedStateD (gpsTabFeed initGpsTab ggaSentence) initGpsTab).lblGrid = "JN58sc" :=
  ⟨by with_unfolding_all rfl, by with_unfolding_all rfl, by with_unfolding_all rfl,
   by with_unfolding_all rfl⟩

/-- C3 amended: in the radio_gui decoder a grid locator is surfaced only
once an active recommended-minimum sentence (with non-empty time field)
has been observed, in this chunk or earlier, and a grid label once
acquired is never reset to the unknown placeholder; in the gps_tab
decoder a valid fix-data sentence alone surfaces position and grid (its
recommended-minimum sentences drive only time and date). -/
theorem C3_amended :
    (∀ (ls : List String) (st st' : RadioState) (evs : List String),
        radioLines ls st = .ok (st', evs) →
        (truthyOpt st.rmc_time = false → evs ≠ [] → ∃ l ∈ ls, activeRMC l) ∧
        (st.gps_grid ≠ "--" → st'.gps_grid ≠ "--")) ∧
    feedEvents (gpsTabFeed initGpsTab ggaSentence) = ["JN58sc"] ∧
    (feedStateD (gpsTabFeed initGpsTab ggaSentence) initGpsTab).lblGrid = "JN58sc" := by
  refine ⟨?_, by with_unfolding_all rfl, by with_unfolding_all rfl⟩
  intro ls st st' evs h
  simp only [radioLines] at h
  split at h
  · exact Except.noConfusion h
  · rename_i st2 evs2 flag2 heq
    simp only [Except.ok.injEq, Prod.mk.injEq] at h
    obtain ⟨h1, h2⟩ := h
    subst h1; subst h2
    have hinv := radioFold_inv ls st [] false st2 evs2 flag2 heq
    exact ⟨fun hf hne => hinv.1 hf hne, hinv.2⟩

/-- Witness for C3: feeding the radio_gui decoder an active
recommended-minimum line followed by a valid fix-data line from the
initial state surfaces a grid, so an active recommended-minimum line is
among the processed lines. -/
theorem C3_amended_witness : ∃ l ∈ [rmcLine, ggaLine], activeRMC l :=
  (C3_amended.1 [rmcLine, ggaLine] initRadio
      (radioStateD (radioLines [rmcLine, ggaLine] initRadio) initRadio)
      ["JN58sc"] (by with_unfolding_all rfl)).1 rfl (by simp)

/-- C4 counterexample: the fix-data sentence fed whole produces a grid
update, but fed as two fragments split mid-line (the concatenation of
the fragments is the same sentence) it produces no update at all — the
decoder has no cross-call buffering. -/
theorem C4_counterexample :
    feedEvents (gpsTabFeed initGpsTab (ggaFragmentA ++ ggaFragmentB)) = ["JN58sc"] ∧
      feedEvents (gpsTabFeed2 initGpsTab ggaFragmentA ggaFragmentB) = [] :=
  ⟨by with_unfolding_all rfl, by with_unfolding_all rfl⟩

/-- C4 amended: feed accepts chunks with zero, one or many
newline-terminated sentences but performs no cross-call reassembly: each
feed call surfaces at most one grid update (from the last valid fix
sentence of the chunk), a chunk without a fix-data discriminator
surfaces nothing, and a sentence split mid-line across two feed calls is
dropped rather than reassembled. -/
theorem C4_amended :
    (∀ (st : GpsTabState) (raw : String) (st' : GpsTabState) (evs : List String),
        gpsTabFeed st raw = .ok (st', evs) → evs.length ≤ 1) ∧
    (∀ (st : GpsTabState) (raw : String) (st' : GpsTabState) (evs : List String),
        (∀ l ∈ pySplitlines raw, ¬ l.startsWith "$GPGGA") →
        gpsTabFeed st raw = .ok (st', evs) → evs = []) ∧
    feedEvents (gpsTabFeed initGpsTab (ggaFragmentA ++ ggaFragmentB)) = ["JN58sc"] ∧
    feedEvents (gpsTabFeed2 initGpsTab ggaFragmentA ggaFragmentB) = [] := by
  refine ⟨?_, ?_, by with_unfolding_all rfl, by with_unfolding_all rfl⟩
  · intro st raw st' evs h
    simp only [gpsTabFeed, gpsTabLines] at h
    split at h
    all_goals try split at h
    all_goals first
      | exact Except.noConfusion h
      | (simp only [Except.ok.injEq, Prod.mk.injEq] at h
         obtain ⟨h1, h2⟩ := h
         rw [← h2]
         simp)
  · intro st raw st' evs hno h
    obtain ⟨stX, hX⟩ := gpsTabFold_no_gga (pySplitlines raw)
        { st with rawLog := st.rawLog ++ [pyRstrip raw] } (none, none) hno
    simp only [gpsTabFeed, gpsTabLines] at h
    rw [hX] at h
    have h2 : (Except.ok (stX, ([] : List String)) :
        Except String (GpsTabState × List String)) = .ok (st', evs) := h
    injection h2 with h3
    injection h3 with ha hb
    exact hb.symm

/-- Witness for C4 on the whole fix-data sentence. -/
theorem C4_amended_witness :
    (feedEvents (gpsTabFeed initGpsTab ggaSentence)).length ≤ 1 :=
  C4_amended.1 initGpsTab ggaSentence
    (feedStateD (gpsTabFeed initGpsTab ggaSentence) initGpsTab)
    (feedEvents (gpsTabFeed initGpsTab ggaSentence))
    (by with_unfolding_all rfl)

/-- C5 counterexample: a line passing the fix-data discriminator, the
field-count check and the fix-quality check but with empty coordinate
fields makes feed raise a float-conversion error to its caller, refuting
the claim that feed never raises. -/
theorem C5_counterexample :
    gpsTabFeed initGpsTab ggaMalformed =
      .error "ValueError: could not convert string to float" := by
  with_unfolding_all rfl

/-- C5 amended: a chunk containing no line with the fix-data
discriminator is always processed without error — such lines are logged
verbatim and produce no fix update — but a fix-data line passing the
length and quality checks whose coordinate fields are not numeric makes
feed raise a conversion error. -/
theorem C5_amended :
    (∀ (st : GpsTabState) (raw : String),
        (∀ l ∈ pySplitlines raw, ¬ l.startsWith "$GPGGA") →
        ∃ st', gpsTabFeed st raw = .ok (st', []) ∧
          st'.rawLog = st.rawLog ++ [pyRstrip raw]) ∧
    gpsTabFeed initGpsTab ggaMalformed =
      .error "ValueError: could not convert string to float" := by
  refine ⟨?_, by with_unfolding_all rfl⟩
  intro st raw hno
  obtain ⟨stX, hX⟩ := gpsTabFold_no_gga (pySplitlines raw)
      { st with rawLog := st.rawLog ++ [pyRstrip raw] } (none, none) hno
  refine ⟨stX, ?_, ?_⟩
  · simp only [gpsTabFeed, gpsTabLines]
    rw [hX]
  · exact (gpsTabFold_preserves (pySplitlines raw) _ (none, none) stX (none, none) hX).1

/-- Witness for C5 on the recommended-minimum sentence. -/
theorem C5_amended_witness :
    ∃ st', gpsTabFeed initGpsTab rmcSentence = .ok (st', []) ∧
      st'.rawLog = initGpsTab.rawLog ++ [pyRstrip rmcSentence] := by
  refine C5_amended.1 initGpsTab rmcSentence ?_
  intro l hl
  have he : pySplitlines rmcSentence = [rmcLine] := by with_unfolding_all rfl
  rw [he, List.mem_singleton] at hl
  subst hl
  intro hcon
  have hf : rmcLine.startsWith "$GPGGA" = false := by with_unfolding_all rfl
  rw [hf] at hcon
  exact Bool.noConfusion hcon

/-- C6 counterexample: after the radio_gui decoder has already surfaced
the grid "JN58sc" (its grid label holds that value), feeding the very
same fix sentence again surfaces the same grid value once more — the
radio_gui decoder has no change check, refuting the claim that a grid is
surfaced only when it differs from the previously surfaced value. -/
theorem C6_counterexample :
    radioAfter2.gps_grid = "JN58sc" ∧
      radioEvents (radioFeed radioAfter2 ggaSentence) = ["JN58sc"] :=
  ⟨by with_unfolding_all rfl, by with_unfolding_all rfl⟩

/-- C6 amended: the gps_tab decoder surfaces a grid locator only when it
differs from the previously surfaced value (no event leaves the stored
grid and grid label unchanged; every surfaced grid differs from the
stored one and becomes the new stored value), whereas the radio_gui
decoder re-surfaces the grid on every valid fix sentence even when the
value is unchanged. -/
theorem C6_amended :
    (∀ (st : GpsTabState) (raw : String) (st' : GpsTabState) (evs : List String),
        gpsTabFeed st raw = .ok (st', evs) →
        (evs = [] → st'.current_grid = st.current_grid ∧ st'.lblGrid = st.lblGrid) ∧
        (∀ g ∈ evs, some g ≠ st.current_grid ∧ st'.current_grid = some g ∧
          st'.lblGrid = g)) ∧
    radioAfter2.gps_grid = "JN58sc" ∧
    radioEvents (radioFeed radioAfter2 ggaSentence) = ["JN58sc"] := by
  refine ⟨?_, by with_unfolding_all rfl, by with_unfolding_all rfl⟩
  intro st raw st' evs h
  simp only [gpsTabFeed, gpsTabLines] at h
  split at h
  · exact Except.noConfusion h
  · rename_i heq
    split at h
    · rename_i hne2
      simp only [Except.ok.injEq, Prod.mk.injEq] at h
      obtain ⟨h1, h2⟩ := h
      subst h1; subst h2
      have hpres := gpsTabFold_preserves _ _ _ _ _ heq
      constructor
      · intro hcon
        exact absurd hcon (by simp)
      · intro g hg
        rw [List.mem_singleton] at hg
        subst hg
        refine ⟨?_, rfl, rfl⟩
        have hcg := hpres.2.1
        rw [← hcg]
        exact hne2
    · simp only [Except.ok.injEq, Prod.mk.injEq] at h
      obtain ⟨h1, h2⟩ := h
      subst h1; subst h2
      have hpres := gpsTabFold_preserves _ _ _ _ _ heq
      exact ⟨fun _ => ⟨hpres.2.1, hpres.2.2⟩, fun g hg => absurd hg (by simp)⟩
  · rename_i heq
    simp only [Except.ok.injEq, Prod.mk.injEq] at h
    obtain ⟨h1, h2⟩ := h
    subst h1; subst h2
    have hpres := gpsTabFold_preserves _ _ _ _ _ heq
    exact ⟨fun _ => ⟨hpres.2.1, hpres.2.2⟩, fun g hg => absurd hg (by simp)⟩

/-- Witness for C6: the first fed fix sentence surfaces a fresh grid. -/
theorem C6_amended_witness :
    some "JN58sc" ≠ initGpsTab.current_grid ∧
      (feedStateD (gpsTabFeed initGpsTab ggaSentence) initGpsTab).current_grid =
        some "JN58sc" ∧
      (feedStateD (gpsTabFeed initGpsTab ggaSentence) initGpsTab).lblGrid = "JN58sc" :=
  (C6_amended.1 initGpsTab ggaSentence
      (feedStateD (gpsTabFeed initGpsTab ggaSentence) initGpsTab) ["JN58sc"]
      (by with_unfolding_all rfl)).2 "JN58sc" (by simp)

/-- C7: build_service_commands is a pure function of the configuration
snapshot returning exactly three command specifications — rig-control
daemon, modem, mail client — equal to the spec's fixed argument-vector
templates with configuration values substituted and each missing key
replaced by its documented default; with an empty configuration every
argument position is filled with the documented default (model "2050",
device "/dev/ttyUSB0", baud "9600", PTT "RTS", DCD "RIG", audio hardware
id "0,0"). -/
theorem C7_build_commands (rig audio : String → Option String) (home : String) :
    build_service_commands rig audio home = build_commands_spec rig audio home ∧
    (build_service_commands rig audio home).length = 3 ∧
    build_service_commands emptyCfg emptyCfg home =
      [["rigctld", "-m", "2050", "-r", "/dev/ttyUSB0", "-s", "9600", "-P", "RTS", "-D", "RIG"],
       ["./ardopcf", "--logdir", expandUser home "~/ardop_logs", "-p", "/dev/ttyUSB0",
        "8515", "plughw:0,0", "plughw:0,0"],
       ["pat", "--listen=ardop,telnet", "http"]] :=
  ⟨rfl, rfl, rfl⟩

/-- C8 counterexample: in the split start/stop supervisor of
src/pat_gui.py, with a USB device and audio pair selected,
start_services called twice in a row without an intervening stop spawns
a duplicate set — six tracked processes and a second non-empty batch of
spawn events — refuting the claim that the second start is a no-op. -/
theorem C8_counterexample :
    ((pgStart "/home/pi" "ttyUSB0" (some ("0", "0,0"))
        (pgStart "/home/pi" "ttyUSB0" (some ("0", "0,0")) []).1).1).length = 6 ∧
      (pgStart "/home/pi" "ttyUSB0" (some ("0", "0,0"))
        (pgStart "/home/pi" "ttyUSB0" (some ("0", "0,0")) []).1).2 ≠ [] :=
  ⟨by decide, by decide⟩

/-- C8 amended: the toggle supervisor of src/pat_tab.py and
src/radio_gui.py alternates between the two states — from Stopped it
spawns the three service commands and transitions to Running, from
Running it kills the tracked processes, always runs the
force-kill-by-name sweep for the three known names, clears the handles
and transitions to Stopped; in the split supervisor of src/pat_gui.py,
stop is idempotent on retained state and performs the kill-by-name sweep
on every call, while start checks only the device selection — with no
USB device or no audio pair selected it returns without spawning — and
has no Stopped guard: whenever selections are made it appends a fresh
set of three processes, so a second start duplicates them. -/
theorem C8_amended :
    (∀ rig audio home s, s.services_running = false →
        toggle_services rig audio home s =
          ({ processes := s.processes ++ build_service_commands rig audio home,
             services_running := true },
           (build_service_commands rig audio home).map .spawn)) ∧
    (∀ rig audio home s, s.services_running = true →
        toggle_services rig audio home s =
          ({ processes := [], services_running := false },
           s.processes.map .kill ++ [.sweep "rigctld", .sweep "ardopcf", .sweep "pat"])) ∧
    (∀ procs, (pgStop (pgStop procs).1).1 = (pgStop procs).1 ∧
        SupEvent.sweep "rigctld" ∈ (pgStop procs).2 ∧
        SupEvent.sweep "ardopcf" ∈ (pgStop procs).2 ∧
        SupEvent.sweep "pat" ∈ (pgStop procs).2) ∧
    (∀ home usb procs, pgStart home usb none procs = (procs, [])) ∧
    (∀ home audio procs, pgStart home "" audio procs = (procs, [])) ∧
    (∀ home usb audio procs, usb ≠ "" →
        (pgStart home usb (some audio) procs).1 = procs ++ pgBuild home usb audio) := by
  refine ⟨?_, ?_, ?_, ?_, fun _ _ _ => rfl, ?_⟩
  · intro rig audio home s hs
    simp [toggle_services, hs]
  · intro rig audio home s hs
    simp [toggle_services, hs]
  · intro procs
    refine ⟨rfl, ?_, ?_, ?_⟩ <;> simp [pgStop]
  · intro home usb procs
    simp [pgStart]
  · intro home usb audio procs hu
    simp [pgStart, hu]

/-- Witness for C8: toggling from the initial (Stopped) state spawns the
three default service commands. -/
theorem C8_amended_witness :
    toggle_services emptyCfg emptyCfg "/home/pi" initSup =
      ({ processes := initSup.processes ++ build_service_commands emptyCfg emptyCfg "/home/pi",
         services_running := true },
       (build_service_commands emptyCfg emptyCfg "/home/pi").map .spawn) :=
  C8_amended.1 emptyCfg emptyCfg "/home/pi" initSup rfl

/-- C9 counterexample: when the probe executable is absent the probe
raises FileNotFoundError to the caller instead of returning an empty
result — only CalledProcessError is caught — refuting the claim that an
absent listing command yields an empty result without exception. -/
theorem C9_counterexample :
    list_rigs .fileNotFound = .error "FileNotFoundError" ∧
      list_rigs .fileNotFound ≠ .ok [] :=
  ⟨rfl, fun h => Except.noConfusion h⟩

/-- C9 amended: a probe command that exits with an error status yields
an empty result with no exception propagated (CalledProcessError is
caught), a successful probe yields the parsed listing, but an absent
executable raises FileNotFoundError which propagates to the caller. -/
theorem C9_amended :
    list_rigs .exitFailure = .ok [] ∧
    (∀ f, list_audio_pairsE f .exitFailure = .ok []) ∧
    list_rigs .fileNotFound = .error "FileNotFoundError" ∧
    (∀ f, list_audio_pairsE f .fileNotFound = .error "FileNotFoundError") ∧
    (∀ out, list_rigs (.success out) = .ok (rigLinesParse out)) :=
  ⟨rfl, fun _ => rfl, rfl, fun _ => rfl, fun _ => rfl⟩

/-- C10: for every list of (card, hardware id) matches extracted from
the audio-probe output, the accumulation loop of list_audio_pairs
returns exactly the first-occurrence deduplication of the matches: the
result is duplicate-free (each pair occurs at most once), contains
exactly the pairs of the input, and is a sublist of the input, so pairs
appear in the order of their first occurrence. -/
theorem C10_audio_pairs_dedup (ms : List (String × String)) :
    audioDedup ms = firstOccurDedup ms ∧
    (audioDedup ms).Nodup ∧
    (∀ p, p ∈ audioDedup ms ↔ p ∈ ms) ∧
    (audioDedup ms).Sublist ms := by
  have heq : audioDedup ms = firstOccurDedup ms := by
    unfold audioDedup
    rw [audioDedup_go_eq ms []]
    simp
  refine ⟨heq, ?_, ?_, ?_⟩
  · rw [heq]
    exact firstOccurDedup_nodup ms
  · intro p
    rw [heq]
    exact firstOccurDedup_mem ms p
  · rw [heq]
    exact firstOccurDedup_sublist ms

end PatRadio
